import Mathlib

/-!
Shallow embedding of the LAN-Watch repository (two Python files:
`lan_watch_scanner.py`, the terminal scanner, and `lan_watch_dashboard.py`,
the Streamlit dashboard).  Pure computation is translated into Lean
functions; each external effect (the ipconfig text, the ARP transport, the
reverse-DNS directory, the BLE radio) becomes an explicit input, so that
every function of the source is a total, executable Lean definition.

IPv4 addresses are 32-bit naturals (built from dotted-quad octets by
`ipv4OfOctets`); MAC addresses and hostnames are strings.
-/

/-- Numeric value of a dotted quad `a.b.c.d`. -/
def ipv4OfOctets (a b c d : Nat) : Nat :=
  ((a * 256 + b) * 256 + c) * 256 + d

/-- The source test `ip_str.startswith("169.254")`.  On a dotted quad whose
octets are in range this holds exactly when the first two octets are
`169.254`, i.e. when the numeric address has upper 16 bits `169*256+254`. -/
def startsWith169254 (ip : Nat) : Bool :=
  ip / 65536 == 169 * 256 + 254

/-- Whether `mask` is a valid IPv4 netmask (a block of ones followed by
zeros); `ipaddress.ip_interface(f"{ip}/{mask}")` in the source raises
`ValueError` on any other mask string. -/
def isNetmask (mask : Nat) : Bool :=
  (List.range 33).any fun p => mask == 2 ^ 32 - 2 ^ (32 - p)

/-- The CIDR prefix length that `ipaddress` prints for a netmask: the
number of one bits. -/
def cidrLenOfMask (mask : Nat) : Nat :=
  (List.range 32).countP fun i => mask.testBit i

/-- One ARP reply as the source reads it (`element[1].psrc`,
`element[1].hwsrc`). -/
structure ArpResponse where
  psrc : Nat
  hwsrc : String
deriving DecidableEq

/-- One discovered Wi-Fi client: the dict `{"ip": .., "mac": ..}` to which
the enrichment step later adds a `"name"` key (modelled as an `Option`). -/
structure WiredHost where
  ip : Nat
  mac : String
  name : Option String := none
deriving DecidableEq

/-- One BLE advertisement as `bleak` reports it: `d.name` may be `None`
(absent) or any string, `d.address` is the device MAC. -/
structure BLEAdvertisement where
  name : Option String := none
  address : String
deriving DecidableEq

/-- One entry of the Bluetooth result list: the dict
`{"name": d.name, "mac": d.address}`. -/
structure BTDevice where
  name : String
  mac : String
deriving DecidableEq

/-- Outcome of one `socket.gethostbyaddr` call: a hostname, or one of the
failure classes the source distinguishes (`socket.herror`, a timeout of the
0.5 s global socket timeout, any other exception). -/
inductive LookupOutcome where
  | found (hostname : String)
  | herror
  | timedOut
  | otherError
deriving DecidableEq

/-- Whether the lookup failed (did not deliver a hostname). -/
def LookupOutcome.isFailure : LookupOutcome → Bool
  | .found _ => false
  | .herror => true
  | .timedOut => true
  | .otherError => true

/-- The source test `d.name and d.name != "Unknown"` applied to an
advertisement's name: `None` and the empty string are falsy in Python,
and the placeholder `"Unknown"` is rejected explicitly. -/
def usableName : Option String → Bool
  | none => false
  | some s => !(s == "") && !(s == "Unknown")

namespace Scanner

/-- `get_local_network_range_windows` of `lan_watch_scanner.py`
(lines 54-86).  The regex pass over the ipconfig output yields the
(IPv4 address, subnet mask) pairs in document order; that match list is
the input here.  The loop returns, for the first pair whose address does
not start with `169.254`, the network of `ip_interface(f"{ip}/{mask}")`
in CIDR form — numerically the address masked with the netmask plus the
mask's prefix length.  A pair that `ipaddress` cannot parse (an
out-of-range address or an invalid netmask) raises inside the `try`, so
the whole function answers `None`; an exhausted loop raises
`RuntimeError`, also caught, also `None`.  (The regex groups are never
empty, so the `ip_str and mask_str` truthiness test always passes.) -/
def get_local_network_range_windows : List (Nat × Nat) → Option (Nat × Nat)
  | [] => none
  | (ip_str, mask_str) :: rest =>
    if startsWith169254 ip_str then
      get_local_network_range_windows rest
    else if ip_str < 2 ^ 32 ∧ isNetmask mask_str = true then
      some (Nat.land ip_str mask_str, cidrLenOfMask mask_str)
    else
      none

/-- `scan_wifi_network` (lines 88-118): on any transport error the
`except` branch prints a warning and answers the empty list; otherwise
each answered probe contributes the dict
`{"ip": element[1].psrc, "mac": element[1].hwsrc}`, one entry per
response in response order, with no deduplication. -/
def scan_wifi_network (transport : Except String (List ArpResponse)) :
    List WiredHost :=
  match transport with
  | .error _ => []
  | .ok answered_list =>
    answered_list.map fun element => { ip := element.psrc, mac := element.hwsrc }

/-- The annotation written by `enrich_wifi_devices_with_hostname`
(lines 164-170): the hostname on success, `"N/A"` on `socket.herror`
("Hostname not found") and `"N/A"` on every other exception, the 0.5 s
timeout included. -/
def hostnameLabel : LookupOutcome → String
  | .found hostname => hostname
  | .herror => "N/A"
  | .timedOut => "N/A"
  | .otherError => "N/A"

/-- `get_device_hostname` (lines 120-133): fills `results_dict` with the
hostname, with `"N/A"` on `socket.herror`, but with `"Error"` on any other
exception.  This helper is defined and never called anywhere in the
repository, so no host annotation flows through it. -/
def get_device_hostname : LookupOutcome → String
  | .found hostname => hostname
  | .herror => "N/A"
  | .timedOut => "Error"
  | .otherError => "Error"

/-- `enrich_wifi_devices_with_hostname` (lines 136-173): an empty client
list returns `[]` at once; otherwise every client dict gets its `"name"`
key set to the lookup's `hostnameLabel`.  `dns` is the reverse-DNS
directory, one outcome per queried address. -/
def enrich_wifi_devices_with_hostname (dns : Nat → LookupOutcome)
    (clients_list : List WiredHost) : List WiredHost :=
  if clients_list.isEmpty then []
  else
    clients_list.map fun client =>
      { client with name := some (hostnameLabel (dns client.ip)) }

/-- `scan_bluetooth_devices` (lines 178-203): a `BleakError` from
`discover` is caught, a warning is printed, and the still-empty
`devices_list` is returned; otherwise each advertisement with a usable
name contributes `{"name": d.name, "mac": d.address}`. -/
def scan_bluetooth_devices (radio : Except String (List BLEAdvertisement)) :
    List BTDevice :=
  match radio with
  | .error _ => []
  | .ok discovered_devices =>
    discovered_devices.filterMap fun d =>
      if usableName d.name then
        some { name := d.name.getD "", mac := d.address }
      else
        none

/-- Row order of `sorted(clients_list, key=lambda x: ipaddress.ip_address(x['ip']))`
in `display_wifi_results` (line 251): numeric address, ascending. -/
def ipKeyLe (a b : WiredHost) : Prop := a.ip ≤ b.ip

instance : DecidableRel ipKeyLe := fun a b => Nat.decLe a.ip b.ip

instance : IsTotal WiredHost ipKeyLe := ⟨fun a b => Nat.le_total a.ip b.ip⟩

instance : IsTrans WiredHost ipKeyLe := ⟨fun _ _ _ => Nat.le_trans⟩

/-- `display_wifi_results` (lines 249-253) orders the table rows with
Python's `sorted`, a stable sort on the numeric address key; with
in-range addresses the `ValueError` fallback branch is unreachable.  A
stable sort by a fixed key order is extensionally unique, so Mathlib's
stable `insertionSort` computes the same row order. -/
def display_wifi_results (clients_list : List WiredHost) : List WiredHost :=
  List.insertionSort ipKeyLe clients_list

/-- Row order of `sorted(clients_list, key=lambda x: x['name'])` in
`display_bluetooth_results` (line 309): Python compares strings
code-point-wise, hence case-sensitively, as Lean's `String` order does. -/
def nameKeyLe (a b : BTDevice) : Prop := a.name ≤ b.name

instance : DecidableRel nameKeyLe := fun a b => String.decidableLE a.name b.name

instance : IsTotal BTDevice nameKeyLe := ⟨fun a b => le_total a.name b.name⟩

instance : IsTrans BTDevice nameKeyLe := ⟨fun _ _ _ => le_trans⟩

/-- `display_bluetooth_results` (lines 269-322): the same stable sort,
keyed on the device name. -/
def display_bluetooth_results (clients_list : List BTDevice) : List BTDevice :=
  List.insertionSort nameKeyLe clients_list

/-- The observable phases of `main` (lines 327-368), in program order. -/
inductive Phase where
  | adminCheck
  | rangeLookup
  | wifiScan
  | hostnameLookup
  | btScan
  | showResults
deriving DecidableEq

/-- The data `main` hands to the two display calls. -/
structure Snapshot where
  target_range : Nat × Nat
  wifi : List WiredHost
  bt : List BTDevice
deriving DecidableEq

/-- `main` (lines 327-368) on Windows: the admin gate runs first
(`sys.exit(1)` when it fails), then the range lookup (`sys.exit(1)` on
`None`), then the ARP scan, hostname enrichment, Bluetooth scan and the
display calls.  The returned trace lists the phases that executed, in
order; the snapshot is `none` exactly when the run aborted. -/
def main (admin : Bool) (ipconfig : List (Nat × Nat))
    (transport : Except String (List ArpResponse))
    (dns : Nat → LookupOutcome)
    (radio : Except String (List BLEAdvertisement)) :
    List Phase × Option Snapshot :=
  if !admin then
    ([.adminCheck], none)
  else
    match get_local_network_range_windows ipconfig with
    | none => ([.adminCheck, .rangeLookup], none)
    | some target_range =>
      ([.adminCheck, .rangeLookup, .wifiScan, .hostnameLookup, .btScan,
        .showResults],
       some { target_range := target_range,
              wifi := enrich_wifi_devices_with_hostname dns
                        (scan_wifi_network transport),
              bt := scan_bluetooth_devices radio })

end Scanner

namespace Dashboard

/-- `get_local_network_range_windows` of `lan_watch_dashboard.py`
(lines 56-77): the same parsing loop as the scanner's; the
`@st.cache_data(ttl=600)` wrapper around it is modelled at the call site
(`cachedRangeCall`). -/
def get_local_network_range_windows : List (Nat × Nat) → Option (Nat × Nat)
  | [] => none
  | (ip_str, mask_str) :: rest =>
    if startsWith169254 ip_str then
      get_local_network_range_windows rest
    else if ip_str < 2 ^ 32 ∧ isNetmask mask_str = true then
      some (Nat.land ip_str mask_str, cidrLenOfMask mask_str)
    else
      none

/-- `scan_wifi_network` of the dashboard (lines 79-97): the same
construction as the scanner's, error branch included. -/
def scan_wifi_network (transport : Except String (List ArpResponse)) :
    List WiredHost :=
  match transport with
  | .error _ => []
  | .ok answered_list =>
    answered_list.map fun element => { ip := element.psrc, mac := element.hwsrc }

/-- The annotation of the dashboard's `enrich_wifi_devices_with_hostname`
(lines 111-116): `except (socket.herror, Exception)` catches every
failure class, all marked `"N/A"`. -/
def hostnameLabel : LookupOutcome → String
  | .found hostname => hostname
  | .herror => "N/A"
  | .timedOut => "N/A"
  | .otherError => "N/A"

/-- `enrich_wifi_devices_with_hostname` of the dashboard (lines 99-122):
empty input short-circuits to `[]`; otherwise every client's `"name"` key
is set (the progress-bar side effects carry no data). -/
def enrich_wifi_devices_with_hostname (dns : Nat → LookupOutcome)
    (clients_list : List WiredHost) : List WiredHost :=
  if clients_list.isEmpty then []
  else
    clients_list.map fun client =>
      { client with name := some (hostnameLabel (dns client.ip)) }

/-- `scan_bluetooth_devices` of the dashboard (lines 126-142): identical
filtering; a `BleakError` is caught (shown as `st.error`) and the empty
list is returned. -/
def scan_bluetooth_devices (radio : Except String (List BLEAdvertisement)) :
    List BTDevice :=
  match radio with
  | .error _ => []
  | .ok discovered_devices =>
    discovered_devices.filterMap fun d =>
      if usableName d.name then
        some { name := d.name.getD "", mac := d.address }
      else
        none

/-- The Streamlit session between script runs: `st.session_state`
(`scan_run`, `wifi_results`, `bt_results`, lines 313-318) plus the
process-wide `st.cache_data` store of the zero-argument range function.
`rangeCache = none` is a cold cache; the cached value may itself be
`none`, because `st.cache_data` also caches a `None` return.  The 600 s
ttl is not modelled: statements describe runs within one cache
lifetime. -/
structure DashState where
  scan_run : Bool
  wifi_results : List WiredHost
  bt_results : List BTDevice
  rangeCache : Option (Option (Nat × Nat))
deriving DecidableEq

/-- One call to the `@st.cache_data`-wrapped range function: the wrapped
function takes no arguments, so the cache key is constant and a warm
cache answers without re-reading ipconfig.  Returns the answer and the
updated cache. -/
def cachedRangeCall (cache : Option (Option (Nat × Nat)))
    (ipconfig : List (Nat × Nat)) :
    Option (Nat × Nat) × Option (Option (Nat × Nat)) :=
  match cache with
  | some v => (v, some v)
  | none =>
    let v := get_local_network_range_windows ipconfig
    (v, some v)

/-- User-visible events of one `Start Full Network Scan` run, in order:
`st.error` on the admin gate, `st.write(f"Found network: ..")` or the
range `st.error`, then the three scan steps. -/
inductive DashEvent where
  | adminError
  | rangeFound (r : Nat × Nat)
  | rangeError
  | wifiScanned
  | hostnameLookedUp
  | btScanned
deriving DecidableEq

/-- The `Start Full Network Scan` click handler (lines 332-377): sets
`scan_run := True`, gates on `is_admin` (resetting `scan_run` and
stopping on failure), resolves the range through the cache (stopping on
`None`, with `scan_run` left `True`), then runs the ARP scan, the
hostname enrichment and the Bluetooth scan, storing both result lists in
the session state. -/
def startScanClick (s : DashState) (admin : Bool)
    (ipconfig : List (Nat × Nat))
    (transport : Except String (List ArpResponse))
    (dns : Nat → LookupOutcome)
    (radio : Except String (List BLEAdvertisement)) :
    DashState × List DashEvent :=
  if !admin then
    ({ s with scan_run := false }, [.adminError])
  else
    match cachedRangeCall s.rangeCache ipconfig with
    | (none, cache2) =>
      ({ s with scan_run := true, rangeCache := cache2 }, [.rangeError])
    | (some r, cache2) =>
      ({ scan_run := true,
         wifi_results := enrich_wifi_devices_with_hostname dns
                           (scan_wifi_network transport),
         bt_results := scan_bluetooth_devices radio,
         rangeCache := cache2 },
       [.rangeFound r, .wifiScanned, .hostnameLookedUp, .btScanned])

/-- The `Scan Again` click handler (lines 404-409): back to the Idle
screen with both result lists cleared; the `st.cache_data` store is
process-wide and survives the reset. -/
def scanAgainClick (s : DashState) : DashState :=
  { s with scan_run := false, wifi_results := [], bt_results := [] }

end Dashboard

/-- Claim C1: the range resolver returns the network computed from the
first (address, mask) pair in document order whose address is not
link-local, obtained by masking the address with the subnet mask and
CIDR-encoding; in particular `192.168.1.42` with mask `255.255.255.0`
yields `192.168.1.0/24`. -/
theorem c1_range_from_first_qualifying_pair
    (pre post : List (Nat × Nat)) (ip mask : Nat)
    (hpre : ∀ p ∈ pre, startsWith169254 p.1 = true)
    (hip : startsWith169254 ip = false)
    (hbound : ip < 2 ^ 32) (hmask : isNetmask mask = true) :
    Scanner.get_local_network_range_windows (pre ++ (ip, mask) :: post)
      = some (Nat.land ip mask, cidrLenOfMask mask)
    ∧ Scanner.get_local_network_range_windows
        [(ipv4OfOctets 192 168 1 42, ipv4OfOctets 255 255 255 0)]
      = some (ipv4OfOctets 192 168 1 0, 24) := by
  constructor
  · induction pre with
    | nil =>
      simp [Scanner.get_local_network_range_windows, hip]
      exact ⟨hbound, hmask⟩
    | cons p rest ih =>
      obtain ⟨a, b⟩ := p
      have ha : startsWith169254 a = true := hpre (a, b) (List.mem_cons_self _ _)
      simp only [List.cons_append, Scanner.get_local_network_range_windows, ha,
        if_true]
      exact ih fun q hq => hpre q (List.mem_cons_of_mem _ hq)
  · decide

/-- Closed instance of C1: with a leading link-local pair, the resolver
picks the second pair `192.168.1.42/255.255.255.0` and answers
`192.168.1.0/24`. -/
theorem c1_range_from_first_qualifying_pair_witness :
    Scanner.get_local_network_range_windows
      [(ipv4OfOctets 169 254 1 5, ipv4OfOctets 255 255 0 0),
       (ipv4OfOctets 192 168 1 42, ipv4OfOctets 255 255 255 0)]
      = some (ipv4OfOctets 192 168 1 0, 24) := by
  have h := c1_range_from_first_qualifying_pair
    [(ipv4OfOctets 169 254 1 5, ipv4OfOctets 255 255 0 0)] []
    (ipv4OfOctets 192 168 1 42) (ipv4OfOctets 255 255 255 0)
    (by decide) (by decide) (by decide) (by decide)
  have h1 := h.1
  rw [List.singleton_append] at h1
  rw [h1]
  decide

/-- Claim C5: the range resolver does not return a range whenever no
qualifying pair exists — in particular when every pair is link-local —
or when the input yields no parsed pair at all; the scan is one
deterministic pass. -/
theorem c5_no_qualifying_pair_yields_none
    (ms : List (Nat × Nat))
    (h : ∀ p ∈ ms, startsWith169254 p.1 = true) :
    Scanner.get_local_network_range_windows ms = none
    ∧ Scanner.get_local_network_range_windows [] = none := by
  refine ⟨?_, rfl⟩
  induction ms with
  | nil => rfl
  | cons p rest ih =>
    obtain ⟨a, b⟩ := p
    have ha : startsWith169254 a = true := h (a, b) (List.mem_cons_self _ _)
    simp only [Scanner.get_local_network_range_windows, ha, if_true]
    exact ih fun q hq => h q (List.mem_cons_of_mem _ hq)

/-- Closed instance of C5: the single link-local pair
`169.254.1.5/255.255.0.0` resolves to no range. -/
theorem c5_no_qualifying_pair_yields_none_witness :
    Scanner.get_local_network_range_windows
      [(ipv4OfOctets 169 254 1 5, ipv4OfOctets 255 255 0 0)] = none :=
  (c5_no_qualifying_pair_yields_none
    [(ipv4OfOctets 169 254 1 5, ipv4OfOctets 255 255 0 0)] (by decide)).1

/-- Claim C2 as stated is false: the prober keeps every response, so two
responses carrying the same address `10.0.0.1` within one window yield two
entries for that address, and neither a last-wins nor a first-wins
collapse happens — both MAC values survive. -/
theorem c2_counterexample_duplicate_responses_kept :
    ¬ ((Scanner.scan_wifi_network (Except.ok
          [{ psrc := ipv4OfOctets 10 0 0 1, hwsrc := "aa:bb:cc:dd:ee:ff" },
           { psrc := ipv4OfOctets 10 0 0 1, hwsrc := "11:22:33:44:55:66" }])).map
        WiredHost.ip).Nodup
    ∧ Scanner.scan_wifi_network (Except.ok
          [{ psrc := ipv4OfOctets 10 0 0 1, hwsrc := "aa:bb:cc:dd:ee:ff" },
           { psrc := ipv4OfOctets 10 0 0 1, hwsrc := "11:22:33:44:55:66" }])
        = [{ ip := ipv4OfOctets 10 0 0 1, mac := "aa:bb:cc:dd:ee:ff" },
           { ip := ipv4OfOctets 10 0 0 1, mac := "11:22:33:44:55:66" }] := by
  constructor
  · decide
  · rfl

/-- Claim C2 amended: the prober emits exactly one entry per collected
response, carrying that response's address, in response order; hence its
result has no duplicate addresses precisely when the responses of the
window carry pairwise distinct addresses (duplicate responses are kept
verbatim, not collapsed). -/
theorem c2_amended_entries_mirror_responses
    (answered : List ArpResponse)
    (h : (answered.map ArpResponse.psrc).Nodup) :
    (Scanner.scan_wifi_network (Except.ok answered)).map WiredHost.ip
      = answered.map ArpResponse.psrc
    ∧ ((Scanner.scan_wifi_network (Except.ok answered)).map WiredHost.ip).Nodup := by
  have hmap : (Scanner.scan_wifi_network (Except.ok answered)).map WiredHost.ip
      = answered.map ArpResponse.psrc := by
    simp [Scanner.scan_wifi_network, List.map_map]
  exact ⟨hmap, hmap ▸ h⟩

/-- Closed instance of the amended C2: two responses with distinct
addresses produce an address list equal to the responses' and free of
duplicates. -/
theorem c2_amended_entries_mirror_responses_witness :
    (Scanner.scan_wifi_network (Except.ok
        [{ psrc := ipv4OfOctets 10 0 0 1, hwsrc := "aa:bb:cc:dd:ee:ff" },
         { psrc := ipv4OfOctets 10 0 0 2, hwsrc := "11:22:33:44:55:66" }])).map
      WiredHost.ip
      = [ipv4OfOctets 10 0 0 1, ipv4OfOctets 10 0 0 2]
    ∧ ((Scanner.scan_wifi_network (Except.ok
        [{ psrc := ipv4OfOctets 10 0 0 1, hwsrc := "aa:bb:cc:dd:ee:ff" },
         { psrc := ipv4OfOctets 10 0 0 2, hwsrc := "11:22:33:44:55:66" }])).map
      WiredHost.ip).Nodup := by
  have h := c2_amended_entries_mirror_responses
    [{ psrc := ipv4OfOctets 10 0 0 1, hwsrc := "aa:bb:cc:dd:ee:ff" },
     { psrc := ipv4OfOctets 10 0 0 2, hwsrc := "11:22:33:44:55:66" }]
    (by decide)
  exact ⟨h.1.trans (by decide), h.2⟩

/-- Either enrichment step is the map that sets each client's name key
from its lookup, unless the input is empty (in which case both sides are
`[]` anyway). -/
theorem scanner_enrich_eq_map (dns : Nat → LookupOutcome)
    (l : List WiredHost) :
    Scanner.enrich_wifi_devices_with_hostname dns l
      = l.map fun client =>
          { client with name := some (Scanner.hostnameLabel (dns client.ip)) } := by
  cases l with
  | nil => rfl
  | cons a t => rfl

/-- Map characterization of the dashboard's enrichment step. -/
theorem dashboard_enrich_eq_map (dns : Nat → LookupOutcome)
    (l : List WiredHost) :
    Dashboard.enrich_wifi_devices_with_hostname dns l
      = l.map fun client =>
          { client with name := some (Dashboard.hostnameLabel (dns client.ip)) } := by
  cases l with
  | nil => rfl
  | cons a t => rfl

/-- Both annotation tables mark every failure class `"N/A"`. -/
theorem hostnameLabel_of_failure (o : LookupOutcome)
    (h : o.isFailure = true) :
    Scanner.hostnameLabel o = "N/A" ∧ Dashboard.hostnameLabel o = "N/A" := by
  cases o with
  | found hostname => simp [LookupOutcome.isFailure] at h
  | herror => exact ⟨rfl, rfl⟩
  | timedOut => exact ⟨rfl, rfl⟩
  | otherError => exact ⟨rfl, rfl⟩

/-- Claim C3: in both enrichment paths, a host whose reverse lookup fails
— name not found (`herror`), timed out, or any other resolution error —
is annotated with exactly the sentinel `"N/A"`, never any other failure
value or partial hostname. -/
theorem c3_failed_lookup_is_annotated_na (dns : Nat → LookupOutcome)
    (l : List WiredHost) :
    (∀ c ∈ Scanner.enrich_wifi_devices_with_hostname dns l,
        (dns c.ip).isFailure = true → c.name = some "N/A")
    ∧ (∀ c ∈ Dashboard.enrich_wifi_devices_with_hostname dns l,
        (dns c.ip).isFailure = true → c.name = some "N/A") := by
  constructor
  · intro c hc hfail
    rw [scanner_enrich_eq_map] at hc
    obtain ⟨a, -, rfl⟩ := List.mem_map.1 hc
    exact congrArg some ((hostnameLabel_of_failure _ hfail).1)
  · intro c hc hfail
    rw [dashboard_enrich_eq_map] at hc
    obtain ⟨a, -, rfl⟩ := List.mem_map.1 hc
    exact congrArg some ((hostnameLabel_of_failure _ hfail).2)

/-- Closed instance of C3: under a directory that times every lookup out,
the enriched host for `10.0.0.1` is present and carries `"N/A"`. -/
theorem c3_failed_lookup_is_annotated_na_witness :
    ({ ip := ipv4OfOctets 10 0 0 1, mac := "aa:bb:cc:dd:ee:ff",
       name := some "N/A" } : WiredHost)
      ∈ Scanner.enrich_wifi_devices_with_hostname (fun _ => .timedOut)
          [{ ip := ipv4OfOctets 10 0 0 1, mac := "aa:bb:cc:dd:ee:ff" }]
    ∧ ({ ip := ipv4OfOctets 10 0 0 1, mac := "aa:bb:cc:dd:ee:ff",
         name := some "N/A" } : WiredHost).name = some "N/A" := by
  refine ⟨by decide, ?_⟩
  exact (c3_failed_lookup_is_annotated_na (fun _ => .timedOut)
    [{ ip := ipv4OfOctets 10 0 0 1, mac := "aa:bb:cc:dd:ee:ff" }]).1
    _ (by decide) (by decide)

/-- Claim C6: in both Bluetooth scans, an entry exists exactly for the
advertisements with a usable name — absent, empty and `"Unknown"` names
are dropped, every other advertisement contributes its name and link
address, in capture order; witnessed on the four representative
advertisements. -/
theorem c6_usable_name_filter (ads : List BLEAdvertisement) :
    Scanner.scan_bluetooth_devices (Except.ok ads)
      = ((ads.filter fun d => usableName d.name).map
          fun d => { name := d.name.getD "", mac := d.address })
    ∧ Dashboard.scan_bluetooth_devices (Except.ok ads)
      = ((ads.filter fun d => usableName d.name).map
          fun d => { name := d.name.getD "", mac := d.address })
    ∧ Scanner.scan_bluetooth_devices (Except.ok
        [{ name := none, address := "00:11:22:33:44:01" },
         { name := some "", address := "00:11:22:33:44:02" },
         { name := some "Unknown", address := "00:11:22:33:44:03" },
         { name := some "Speaker", address := "00:11:22:33:44:04" }])
      = [{ name := "Speaker", mac := "00:11:22:33:44:04" }] := by
  have key : ∀ l : List BLEAdvertisement,
      (l.filterMap fun d =>
        if usableName d.name then
          some (⟨d.name.getD "", d.address⟩ : BTDevice)
        else none)
      = (l.filter fun d => usableName d.name).map
          fun d => { name := d.name.getD "", mac := d.address } := by
    intro l
    induction l with
    | nil => rfl
    | cons d t ih =>
      by_cases hd : usableName d.name
      · simp [List.filterMap_cons, List.filter_cons, hd, ih]
      · simp [List.filterMap_cons, List.filter_cons, hd, ih]
  exact ⟨key ads, key ads, by decide⟩

/-- Claim C7: an adapter failure (`BleakError`) is absorbed inside the
Bluetooth scan of either program — the result is the empty device list —
and the scanner's orchestration continues exactly as it would with a
working radio that hears nothing, rather than aborting. -/
theorem c7_adapter_error_absorbed (e : String) (admin : Bool)
    (ipconfig : List (Nat × Nat))
    (transport : Except String (List ArpResponse))
    (dns : Nat → LookupOutcome) :
    Scanner.scan_bluetooth_devices (Except.error e) = []
    ∧ Dashboard.scan_bluetooth_devices (Except.error e) = []
    ∧ Scanner.main admin ipconfig transport dns (Except.error e)
      = Scanner.main admin ipconfig transport dns (Except.ok []) := by
  refine ⟨rfl, rfl, ?_⟩
  unfold Scanner.main
  cases admin with
  | false => rfl
  | true =>
    cases Scanner.get_local_network_range_windows ipconfig with
    | none => rfl
    | some r => rfl

/-- Claim C10: both enrichment steps return the same hosts in the same
order — addresses and MAC lists unchanged, length unchanged — with only
the name field set, to the hostname or `"N/A"`; an empty input yields an
empty output. -/
theorem c10_enrichment_preserves_shape (dns : Nat → LookupOutcome)
    (l : List WiredHost) :
    (Scanner.enrich_wifi_devices_with_hostname dns l).map WiredHost.ip
      = l.map WiredHost.ip
    ∧ (Scanner.enrich_wifi_devices_with_hostname dns l).map WiredHost.mac
      = l.map WiredHost.mac
    ∧ (Scanner.enrich_wifi_devices_with_hostname dns l).map WiredHost.name
      = (l.map fun c => some (Scanner.hostnameLabel (dns c.ip)))
    ∧ (Scanner.enrich_wifi_devices_with_hostname dns l).length = l.length
    ∧ Scanner.enrich_wifi_devices_with_hostname dns [] = []
    ∧ (Dashboard.enrich_wifi_devices_with_hostname dns l).map WiredHost.ip
      = l.map WiredHost.ip
    ∧ (Dashboard.enrich_wifi_devices_with_hostname dns l).map WiredHost.mac
      = l.map WiredHost.mac
    ∧ (Dashboard.enrich_wifi_devices_with_hostname dns l).map WiredHost.name
      = (l.map fun c => some (Dashboard.hostnameLabel (dns c.ip)))
    ∧ (Dashboard.enrich_wifi_devices_with_hostname dns l).length = l.length
    ∧ Dashboard.enrich_wifi_devices_with_hostname dns [] = [] := by
  refine ⟨?_, ?_, ?_, ?_, rfl, ?_, ?_, ?_, ?_, rfl⟩ <;>
    simp [scanner_enrich_eq_map, dashboard_enrich_eq_map, List.map_map,
      Function.comp]

/-- Claim C4 as stated is false: the dashboard's range function is wrapped
in `@st.cache_data`, so a second run from Idle consults state cached by
the first run.  Concretely: run 1 resolves ipconfig pairs naming
`10.0.0.5/255.255.255.0` and caches `10.0.0.0/24`; after `Scan Again`,
run 2 is given pairs naming `192.168.1.42/255.255.255.0` — which the
resolver alone maps to `192.168.1.0/24` — yet run 2 reports the cached
`10.0.0.0/24` and never the freshly resolvable range. -/
theorem c4_counterexample_range_cached_across_runs :
    let run1 := Dashboard.startScanClick
      { scan_run := false, wifi_results := [], bt_results := [],
        rangeCache := none }
      true [(ipv4OfOctets 10 0 0 5, ipv4OfOctets 255 255 255 0)]
      (Except.ok []) (fun _ => LookupOutcome.herror) (Except.ok [])
    let run2 := Dashboard.startScanClick (Dashboard.scanAgainClick run1.1)
      true [(ipv4OfOctets 192 168 1 42, ipv4OfOctets 255 255 255 0)]
      (Except.ok []) (fun _ => LookupOutcome.herror) (Except.ok [])
    Dashboard.get_local_network_range_windows
        [(ipv4OfOctets 192 168 1 42, ipv4OfOctets 255 255 255 0)]
      = some (ipv4OfOctets 192 168 1 0, 24)
    ∧ Dashboard.DashEvent.rangeFound (ipv4OfOctets 10 0 0 0, 24) ∈ run2.2
    ∧ Dashboard.DashEvent.rangeFound (ipv4OfOctets 192 168 1 0, 24) ∉ run2.2 := by
  decide

/-- Claim C4 amended: `Scan Again` resets the session to Idle with both
result lists discarded, and a fresh run from Idle is determined by that
run's inputs together with the persistent range cache alone — prior
results never leak into it; what is cached across runs is exactly the
resolved range (for the `st.cache_data` lifetime). -/
theorem c4_amended_runs_independent_given_cache
    (s1 s2 : Dashboard.DashState)
    (ipconfig : List (Nat × Nat))
    (transport : Except String (List ArpResponse))
    (dns : Nat → LookupOutcome)
    (radio : Except String (List BLEAdvertisement))
    (h : s1.rangeCache = s2.rangeCache) :
    (Dashboard.scanAgainClick s1).wifi_results = []
    ∧ (Dashboard.scanAgainClick s1).bt_results = []
    ∧ (Dashboard.scanAgainClick s1).scan_run = false
    ∧ Dashboard.startScanClick (Dashboard.scanAgainClick s1) true
        ipconfig transport dns radio
      = Dashboard.startScanClick (Dashboard.scanAgainClick s2) true
        ipconfig transport dns radio := by
  have hs : Dashboard.scanAgainClick s1 = Dashboard.scanAgainClick s2 := by
    cases s1
    cases s2
    simp_all [Dashboard.scanAgainClick]
  exact ⟨rfl, rfl, rfl, by rw [hs]⟩

/-- Closed instance of the amended C4: two sessions with different stale
results but the same warm cache run `Scan Again` plus a fresh scan to the
same outcome. -/
theorem c4_amended_runs_independent_given_cache_witness :
    Dashboard.startScanClick
        (Dashboard.scanAgainClick
          { scan_run := true,
            wifi_results := [{ ip := ipv4OfOctets 10 0 0 1, mac := "aa:aa" }],
            bt_results := [],
            rangeCache := some (some (ipv4OfOctets 10 0 0 0, 24)) })
        true [] (Except.ok []) (fun _ => LookupOutcome.herror) (Except.ok [])
      = Dashboard.startScanClick
        (Dashboard.scanAgainClick
          { scan_run := false,
            wifi_results := [],
            bt_results := [{ name := "Speaker", mac := "bb:bb" }],
            rangeCache := some (some (ipv4OfOctets 10 0 0 0, 24)) })
        true [] (Except.ok []) (fun _ => LookupOutcome.herror) (Except.ok []) :=
  (c4_amended_runs_independent_given_cache
    { scan_run := true,
      wifi_results := [{ ip := ipv4OfOctets 10 0 0 1, mac := "aa:aa" }],
      bt_results := [],
      rangeCache := some (some (ipv4OfOctets 10 0 0 0, 24)) }
    { scan_run := false,
      wifi_results := [],
      bt_results := [{ name := "Speaker", mac := "bb:bb" }],
      rangeCache := some (some (ipv4OfOctets 10 0 0 0, 24)) }
    [] (Except.ok []) (fun _ => LookupOutcome.herror) (Except.ok []) rfl).2.2.2

/-- Claim C8: the displayed wired table is a permutation of the snapshot's
hosts sorted by numeric address ascending, and the displayed Bluetooth
table is a permutation sorted by name ascending; the name order is
case-sensitive, so `"Banana"` precedes `"apple"`. -/
theorem c8_display_ordering (w : List WiredHost) (b : List BTDevice) :
    (Scanner.display_wifi_results w).Perm w
    ∧ (Scanner.display_wifi_results w).Pairwise (fun x y => x.ip ≤ y.ip)
    ∧ (Scanner.display_bluetooth_results b).Perm b
    ∧ (Scanner.display_bluetooth_results b).Pairwise (fun x y => x.name ≤ y.name)
    ∧ Scanner.display_bluetooth_results
        [{ name := "apple", mac := "00:11:22:33:44:05" },
         { name := "Banana", mac := "00:11:22:33:44:06" }]
      = [{ name := "Banana", mac := "00:11:22:33:44:06" },
         { name := "apple", mac := "00:11:22:33:44:05" }] := by
  refine ⟨List.perm_insertionSort _ _, ?_, List.perm_insertionSort _ _, ?_, ?_⟩
  · exact List.sorted_insertionSort Scanner.ipKeyLe w
  · exact List.sorted_insertionSort Scanner.nameKeyLe b
  · have hab : ¬ Scanner.nameKeyLe
        { name := "apple", mac := "00:11:22:33:44:05" }
        { name := "Banana", mac := "00:11:22:33:44:06" } := by
      show ¬ (("apple" : String) ≤ "Banana")
      rw [String.le_iff_toList_le]
      decide
    simp [Scanner.display_bluetooth_results, List.insertionSort,
      List.orderedInsert, hab]

/-- Claim C9: in every scanner run the admin gate is the first phase and
occurs exactly once; when it fails, the run is the single aborted phase —
no probe/transmission phase ever executed and no snapshot produced — and
the dashboard's handler likewise stops at the gate, resetting `scan_run`
and touching no results. -/
theorem c9_admin_gate_first (admin : Bool) (ipconfig : List (Nat × Nat))
    (transport : Except String (List ArpResponse))
    (dns : Nat → LookupOutcome)
    (radio : Except String (List BLEAdvertisement)) :
    ((Scanner.main admin ipconfig transport dns radio).1.head?
        = some Scanner.Phase.adminCheck)
    ∧ ((Scanner.main admin ipconfig transport dns radio).1.count
        Scanner.Phase.adminCheck = 1)
    ∧ (admin = false →
        (Scanner.main admin ipconfig transport dns radio).1
            = [Scanner.Phase.adminCheck]
        ∧ (Scanner.main admin ipconfig transport dns radio).2 = none
        ∧ Scanner.Phase.wifiScan
            ∉ (Scanner.main admin ipconfig transport dns radio).1)
    ∧ (∀ s : Dashboard.DashState,
        Dashboard.startScanClick s false ipconfig transport dns radio
          = ({ s with scan_run := false }, [Dashboard.DashEvent.adminError])) := by
  cases admin with
  | false =>
    refine ⟨rfl, rfl, fun _ => ⟨rfl, rfl, ?_⟩, fun s => rfl⟩
    intro hm
    simp [Scanner.main] at hm
  | true =>
    rcases hr : Scanner.get_local_network_range_windows ipconfig with _ | r
    · refine ⟨?_, ?_, ?_, fun s => rfl⟩
      · simp [Scanner.main, hr]
      · simp [Scanner.main, hr, List.count_cons]
      · exact fun h => nomatch h
    · refine ⟨?_, ?_, ?_, fun s => rfl⟩
      · simp [Scanner.main, hr]
      · simp [Scanner.main, hr, List.count_cons]
      · exact fun h => nomatch h

/-- Closed instance of C9: with the gate failing, the concrete run is the
lone admin check with no snapshot. -/
theorem c9_admin_gate_first_witness :
    (Scanner.main false [] (Except.ok []) (fun _ => LookupOutcome.herror)
        (Except.ok [])).1 = [Scanner.Phase.adminCheck]
    ∧ (Scanner.main false [] (Except.ok []) (fun _ => LookupOutcome.herror)
        (Except.ok [])).2 = none := by
  have h := c9_admin_gate_first false [] (Except.ok [])
    (fun _ => LookupOutcome.herror) (Except.ok [])
  exact ⟨(h.2.2.1 rfl).1, (h.2.2.1 rfl).2.1⟩
